import Mathlib

/-!
Shallow embedding of the profile-content binary encoder in `json2bpf.py`
(repository `sing-box-config`) together with a verification of its key
properties: varint encoding, length-prefixed strings, the variant-dependent
payload layout, the 2-byte message header, and the command-line
normalization logic in `main`.

Bytes are modelled as natural numbers below 256 gathered in lists; the
`io.BytesIO` writers of the Python code become functions returning the list
of bytes they write.  Python's arbitrary-precision `int` is modelled by
`Int`.  The gzip compressor is kept abstract: `encode_profile_content`
takes the compression function as an explicit parameter, exactly as the
code hands the payload to `gzip.GzipFile` and splices the compressed bytes
into the output.
-/

namespace Json2bpf

/-- Embeds Python `value.encode('utf-8')`: the UTF-8 bytes of a string, as
naturals.  `String.utf8EncodeChar` is the standard UTF-8 encoding of one
code point, which is what CPython's `str.encode` produces. -/
def utf8Bytes (s : String) : List Nat :=
  (s.data.flatMap String.utf8EncodeChar).map (fun b => b.toNat)

/-- Loop body of `write_uvarint` (`while value >= 0x80: ...`), with an
explicit fuel so that the definition is structurally recursive and
kernel-computable.  Each pass writes `(value & 0x7F) | 0x80` and shifts by
7 bits (`value >>= 7`, i.e. floor-division by 0x80); when the guard fails
the final byte `value & 0x7F` is written.  Python's `& 0x7F` on an `int`
is Euclidean remainder by 0x80, matching `%` on `Int`. -/
def uvarint_go (fuel : Nat) (value : Int) : List Nat :=
  match fuel with
  | 0 => [(value % 0x80).toNat]
  | f + 1 =>
    if 0x80 ≤ value then
      ((value % 0x80).toNat ||| 0x80) :: uvarint_go f (value / 0x80)
    else
      [(value % 0x80).toNat]

/-- Embeds `write_uvarint` from `json2bpf.py` (the bytes it writes to its
writer; the returned byte count is unused by every caller and is not
modelled).  A fuel of `value.toNat` suffices: each loop pass divides the
value by 0x80, and the loop is never entered for values below 0x80. -/
def write_uvarint (value : Int) : List Nat :=
  uvarint_go value.toNat value

/-- Embeds `write_varbin_string` from `json2bpf.py`: the varint-encoded
UTF-8 byte length followed, when the length is positive, by the encoded
bytes themselves. -/
def write_varbin_string (value : String) : List Nat :=
  let encoded := utf8Bytes value
  let length := encoded.length
  write_uvarint (length : Int) ++ (if 0 < length then encoded else [])

/-- `ProfileContent.PROFILE_TYPE_LOCAL` in `json2bpf.py`. -/
def PROFILE_TYPE_LOCAL : Int := 0

/-- `ProfileContent.PROFILE_TYPE_ICLOUD` in `json2bpf.py`. -/
def PROFILE_TYPE_ICLOUD : Int := 1

/-- `ProfileContent.PROFILE_TYPE_REMOTE` in `json2bpf.py`. -/
def PROFILE_TYPE_REMOTE : Int := 2

/-- `ProfileContent.MESSAGE_TYPE_PROFILE_CONTENT` in `json2bpf.py`,
written as the first output byte via `struct.pack('B', ...)`. -/
def MESSAGE_TYPE_PROFILE_CONTENT : Nat := 3

/-- Embeds the `ProfileContent` record of `json2bpf.py` with the same
fields and defaults. -/
structure ProfileContent where
  name : String
  type : Int
  config : String
  remote_path : String := ""
  auto_update : Bool := false
  auto_update_interval : Int := 0
  last_updated : Int := 0

/-- The `count`-byte big-endian base-256 digits of `v` (most significant
first), as produced by `struct.pack` for an in-range value reduced to its
two's-complement bit pattern. -/
def be_bytes : Nat → Nat → List Nat
  | 0, _ => []
  | count + 1, v => (v / 256 ^ count) % 256 :: be_bytes count v

/-- Embeds `struct.pack('>i', v)`: 4-byte big-endian two's-complement.
Python's `struct` raises `struct.error` outside the signed 32-bit range,
modelled by `none`. -/
def struct_pack_i32 (v : Int) : Option (List Nat) :=
  if -2147483648 ≤ v ∧ v ≤ 2147483647 then
    some (be_bytes 4 (v % 4294967296).toNat)
  else
    none

/-- Embeds `struct.pack('>q', v)`: 8-byte big-endian two's-complement,
failing outside the signed 64-bit range. -/
def struct_pack_i64 (v : Int) : Option (List Nat) :=
  if -9223372036854775808 ≤ v ∧ v ≤ 9223372036854775807 then
    some (be_bytes 8 (v % 18446744073709551616).toNat)
  else
    none

/-- Embeds `struct.pack('?', b)` applied to a Python `bool`: one byte,
0x01 for true and 0x00 for false. -/
def struct_pack_bool (b : Bool) : List Nat :=
  [if b then 1 else 0]

/-- The contents of `inner_buffer` in `encode_profile_content`: name, 4-byte
big-endian type tag, config, then `remote_path` when the type differs from
`PROFILE_TYPE_LOCAL`, then the auto-update triple when the type equals
`PROFILE_TYPE_REMOTE`.  This is the uncompressed payload handed to the gzip
writer; `none` models a `struct.error` on an out-of-range integer. -/
def inner_payload (profile : ProfileContent) : Option (List Nat) := do
  let tag ← struct_pack_i32 profile.type
  let buf := write_varbin_string profile.name ++ tag ++ write_varbin_string profile.config
  let buf := if profile.type ≠ PROFILE_TYPE_LOCAL
    then buf ++ write_varbin_string profile.remote_path
    else buf
  if profile.type = PROFILE_TYPE_REMOTE then
    let iv ← struct_pack_i32 profile.auto_update_interval
    let lu ← struct_pack_i64 profile.last_updated
    pure (buf ++ struct_pack_bool profile.auto_update ++ iv ++ lu)
  else
    pure buf

/-- Embeds `encode_profile_content` from `json2bpf.py`: the byte
`MESSAGE_TYPE_PROFILE_CONTENT`, the byte 1, then the compressed payload.
The gzip compressor is passed in as `gzip_compress`; the code writes the
payload into a `gzip.GzipFile` over a fresh buffer and appends that
buffer's contents, nothing else, after the two header bytes.  Note the
abstraction boundary: `gzip_compress` stands for one invocation of the
framer, and the stream it produces begins with a gzip header whose MTIME
field holds the clock value read at that invocation (the `GzipFile` is
opened without an `mtime` argument), so two runs of the program
correspond to two different `gzip_compress` functions;
`encode_profile_content_clocked` below makes that time dependence
explicit. -/
def encode_profile_content (gzip_compress : List Nat → List Nat)
    (profile : ProfileContent) : Option (List Nat) :=
  (inner_payload profile).map (fun payload =>
    MESSAGE_TYPE_PROFILE_CONTENT :: 1 :: gzip_compress payload)

/-- The `count`-byte little-endian base-256 digits of `v` (least
significant first), as produced by `struct.pack('<L', v)` for an in-range
value. -/
def le_bytes : Nat → Nat → List Nat
  | 0, _ => []
  | count + 1, v => v % 256 :: le_bytes count (v / 256)

/-- The 10-byte gzip member header that CPython's `gzip.GzipFile` writes
when opened for writing without an `mtime` argument, as `json2bpf.py`
line 55 does: magic bytes `1f 8b`, compression method 8 (deflate), flag
byte 0, the clock value `int(time.time())` packed as a 4-byte
little-endian MTIME field, the XFL byte 2 for the default compression
level 9, and OS byte `0xFF`.  `mtime` is the clock value read when the
stream is opened. -/
def gzip_header (mtime : Int) : List Nat :=
  [0x1f, 0x8b, 0x08, 0x00] ++ le_bytes 4 ((mtime % 4294967296).toNat) ++ [0x02, 0xff]

/-- Refinement of `encode_profile_content` that separates the gzip
stream into the parts CPython actually writes: the 10-byte header, whose
MTIME field holds the clock value `now` read when the `GzipFile` is
opened, followed by the time-independent remainder of the stream (the
deflate body with its CRC32/size trailer), abstracted as `deflate_body`.
This exposes the hidden clock input of the program's compression framer. -/
def encode_profile_content_clocked (deflate_body : List Nat → List Nat)
    (now : Int) (profile : ProfileContent) : Option (List Nat) :=
  (inner_payload profile).map (fun payload =>
    MESSAGE_TYPE_PROFILE_CONTENT :: 1 :: (gzip_header now ++ deflate_body payload))

/-- Embeds `create_local_profile` from `json2bpf.py`. -/
def create_local_profile (name config : String) : ProfileContent :=
  { name := name, type := PROFILE_TYPE_LOCAL, config := config }

/-- Embeds `create_remote_profile` from `json2bpf.py` (`main` always
passes every argument, so the Python defaults are immaterial and the
arguments are taken explicitly here). -/
def create_remote_profile (name config remote_path : String)
    (auto_update : Bool) (auto_update_interval : Int)
    (last_updated : Int) : ProfileContent :=
  { name := name, type := PROFILE_TYPE_REMOTE, config := config,
    remote_path := remote_path, auto_update := auto_update,
    auto_update_interval := auto_update_interval, last_updated := last_updated }

/-- Embeds `create_icloud_profile` from `json2bpf.py`. -/
def create_icloud_profile (name config remote_path : String) : ProfileContent :=
  { name := name, type := PROFILE_TYPE_ICLOUD, config := config,
    remote_path := remote_path }

/-- Reassembles a varint byte sequence little-endian by 7-bit groups,
ignoring the continuation bits: the reading direction of the encoding,
used to state the round-trip property. -/
def varint_value : List Nat → Nat
  | [] => 0
  | b :: rest => b % 128 + 128 * varint_value rest

/-- Well-formedness of a varint byte string: nonempty, every byte before
the last carries the continuation bit, and the final byte does not. -/
def uvarint_wf (l : List Nat) : Prop :=
  l ≠ [] ∧ (∀ b ∈ l.dropLast, 128 ≤ b) ∧ (∀ b ∈ l.getLast?, b < 128)

/-- Python `s.startswith(p)`, decided on the character lists. -/
def str_startswith (s p : String) : Bool :=
  p.data.isPrefixOf s.data

/-- Python `s.endswith(p)`, decided on the character lists. -/
def str_endswith (s p : String) : Bool :=
  p.data.reverse.isPrefixOf s.data.reverse

/-- The file-path heuristic of `main` in `json2bpf.py`:
`config_content.startswith(("./", "/", "~/")) or
config_content.endswith(".json")`. -/
def looks_like_path (s : String) : Bool :=
  str_startswith s "./" || str_startswith s "/" || str_startswith s "~/" ||
    str_endswith s ".json"

/-- `os.path.basename` for slash-separated paths: the part after the last
slash. -/
def basename (p : String) : String :=
  String.mk ((p.data.reverse.takeWhile (fun c => c ≠ '/')).reverse)

/-- The first component of `os.path.splitext` on a base name (no slashes):
the text before the last dot, unless every character before that dot is
itself a dot, in which case there is no extension to strip. -/
def split_ext_root (b : String) : String :=
  let cs := b.toList
  let dots := cs.enum.filterMap (fun ic => if ic.2 = '.' then some ic.1 else none)
  match dots.getLast? with
  | none => b
  | some d => if (cs.take d).any (fun c => c ≠ '.') then String.mk (cs.take d) else b

/-- Outcome of the config/name resolution fragment of `main`
(`json2bpf.py` lines 187-204): either the resolved config content, the
recorded config file path and the profile name, or the diagnostic-plus-
`sys.exit(1)` path for a missing name. -/
inductive ConfigNameResult where
  | ok (config_content : String) (config_file_path : Option String) (profile_name : String)
  | exit_error
  deriving DecidableEq

/-- Embeds `main`'s config/name resolution (`json2bpf.py` lines 187-204).
`read_file` models `open(...).read()`, with `none` standing for the caught
`FileNotFoundError` / `PermissionError`; `args_name` is `args.name`
(`none` when the flag is absent).  Note the source sets
`config_file_path = config_content` before attempting the read, so a
failed read still leaves the path recorded. -/
def resolve_config_and_name (read_file : String → Option String)
    (args_config : String) (args_name : Option String) : ConfigNameResult :=
  let res :=
    if looks_like_path args_config then
      match read_file args_config with
      | some content => (content, some args_config)
      | none => (args_config, some args_config)
    else
      (args_config, none)
  let config_content := res.1
  let config_file_path := res.2
  let name0 := args_name.getD ""
  let profile_name :=
    if name0 = "" then
      match config_file_path with
      | some p => if p = "" then "" else split_ext_root (basename p)
      | none => ""
    else name0
  if profile_name = "" then ConfigNameResult.exit_error
  else ConfigNameResult.ok config_content config_file_path profile_name

/-- Python `x or y` specialised to optional strings: the first operand
when it is present and non-empty, otherwise the second operand. -/
def py_or_string (x : Option String) (y : String) : String :=
  match x with
  | none => y
  | some s => if s = "" then y else s

/-- Embeds `remote_path = args.remote_path or args.remotepath or ""`
(`json2bpf.py` line 178). -/
def effective_remote_path (args_remote_path args_remotepath : Option String) : String :=
  py_or_string args_remote_path (py_or_string args_remotepath "")

/-- Embeds `auto_update = args.auto_update or args.autoupdate`
(`json2bpf.py` line 179). -/
def effective_auto_update (args_auto_update args_autoupdate : Bool) : Bool :=
  args_auto_update || args_autoupdate

/-- Embeds `auto_update_interval = args.autoupdateinterval if
args.autoupdateinterval != 0 else args.auto_update_interval`
(`json2bpf.py` line 180). -/
def effective_auto_update_interval (args_autoupdateinterval args_auto_update_interval : Int) : Int :=
  if args_autoupdateinterval ≠ 0 then args_autoupdateinterval else args_auto_update_interval

/-- The remote-path rule exactly as the specification words it: the value
of `--remote-path` if given, else the value of `--remotepath`, else empty.
Stated from the spec for comparison with `effective_remote_path`. -/
def claimed_remote_path (args_remote_path args_remotepath : Option String) : String :=
  match args_remote_path with
  | some s => s
  | none =>
    match args_remotepath with
    | some t => t
    | none => ""

/-! ### Basic facts about the varint encoder -/

theorem lor_128 (n : Nat) (h : n < 128) : n ||| 128 = n + 128 := by
  have h128 : ∀ m < 128, m ||| 128 = m + 128 := by decide
  exact h128 n h

theorem uvarint_go_low (f : Nat) (v : Int) (h : ¬ 0x80 ≤ v) :
    uvarint_go f v = [(v % 0x80).toNat] := by
  cases f <;> simp [uvarint_go, h]

theorem uvarint_go_eq (f : Nat) (v : Int) (h : v.toNat ≤ f) :
    uvarint_go f v = write_uvarint v := by
  induction f using Nat.strong_induction_on generalizing v with
  | _ f ih =>
    by_cases hv : 0x80 ≤ v
    · obtain ⟨f', rfl⟩ : ∃ f', f = f' + 1 := ⟨f - 1, by omega⟩
      obtain ⟨m, hm⟩ : ∃ m, v.toNat = m + 1 := ⟨v.toNat - 1, by omega⟩
      have hdiv : (v / 0x80).toNat ≤ f' := by omega
      have hdiv' : (v / 0x80).toNat ≤ m := by omega
      rw [show uvarint_go (f' + 1) v =
            ((v % 0x80).toNat ||| 0x80) :: uvarint_go f' (v / 0x80) by
          simp [uvarint_go, hv]]
      rw [write_uvarint, hm,
        show uvarint_go (m + 1) v =
            ((v % 0x80).toNat ||| 0x80) :: uvarint_go m (v / 0x80) by
          simp [uvarint_go, hv]]
      rw [ih f' (by omega) _ hdiv, ih m (by omega) _ hdiv']
    · rw [uvarint_go_low _ _ hv, write_uvarint, uvarint_go_low _ _ hv]

theorem write_uvarint_eq (v : Int) :
    write_uvarint v =
      if 0x80 ≤ v then ((v % 0x80).toNat ||| 0x80) :: write_uvarint (v / 0x80)
      else [(v % 0x80).toNat] := by
  by_cases hv : 0x80 ≤ v
  · obtain ⟨m, hm⟩ : ∃ m, v.toNat = m + 1 := ⟨v.toNat - 1, by omega⟩
    rw [write_uvarint, hm,
      show uvarint_go (m + 1) v =
          ((v % 0x80).toNat ||| 0x80) :: uvarint_go m (v / 0x80) by
        simp [uvarint_go, hv],
      uvarint_go_eq m _ (by omega), if_pos hv]
  · rw [write_uvarint, uvarint_go_low _ _ hv, if_neg hv]

theorem write_uvarint_nat (n : Nat) :
    write_uvarint (n : Int) =
      if n < 128 then [n]
      else (n % 128 + 128) :: write_uvarint ((n / 128 : Nat) : Int) := by
  rw [write_uvarint_eq]
  by_cases h : n < 128
  · have h1 : ¬ ((0x80 : Int) ≤ (n : Int)) := by omega
    rw [if_neg h1, if_pos h]
    have : ((n : Int) % 0x80).toNat = n := by omega
    rw [this]
  · have h1 : (0x80 : Int) ≤ (n : Int) := by omega
    have h2 : ((n : Int) % 0x80).toNat = n % 128 := by omega
    have h3 : ((n : Int) / 0x80) = ((n / 128 : Nat) : Int) := by omega
    rw [if_pos h1, if_neg h, h2, h3, lor_128 _ (by omega)]

theorem varint_value_write (n : Nat) :
    varint_value (write_uvarint (n : Int)) = n := by
  induction n using Nat.strong_induction_on with
  | _ n ih =>
    rw [write_uvarint_nat]
    by_cases h : n < 128
    · rw [if_pos h]
      simp only [varint_value]
      omega
    · rw [if_neg h]
      simp only [varint_value]
      rw [ih (n / 128) (by omega)]
      omega

theorem write_uvarint_nat_ne_nil (n : Nat) : write_uvarint (n : Int) ≠ [] := by
  rw [write_uvarint_nat]
  split <;> simp

theorem write_uvarint_wf (n : Nat) : uvarint_wf (write_uvarint (n : Int)) := by
  induction n using Nat.strong_induction_on with
  | _ n ih =>
    rw [write_uvarint_nat]
    by_cases h : n < 128
    · rw [if_pos h]
      refine ⟨by simp, by simp, ?_⟩
      intro b hb
      simp [List.getLast?] at hb
      omega
    · rw [if_neg h]
      obtain ⟨h1, h2, h3⟩ := ih (n / 128) (by omega)
      rcases hl : write_uvarint ((n / 128 : Nat) : Int) with _ | ⟨x, xs⟩
      · exact absurd hl h1
      · rw [hl] at h2 h3
        refine ⟨by simp, ?_, ?_⟩
        · intro b hb
          rw [List.dropLast_cons₂] at hb
          rcases List.mem_cons.mp hb with hb | hb
          · omega
          · exact h2 b hb
        · intro b hb
          rw [List.getLast?_cons_cons] at hb
          exact h3 b hb

theorem write_uvarint_lt_pow (n : Nat) :
    n < 128 ^ (write_uvarint (n : Int)).length := by
  induction n using Nat.strong_induction_on with
  | _ n ih =>
    rw [write_uvarint_nat]
    by_cases h : n < 128
    · simp [h]
    · rw [if_neg h]
      have hih := ih (n / 128) (by omega)
      have hmod := Nat.div_add_mod n 128
      simp only [List.length_cons, pow_succ]
      have : 128 * (n / 128) < 128 * 128 ^ (write_uvarint ((n / 128 : Nat) : Int)).length :=
        mul_lt_mul_of_pos_left hih (by omega)
      omega

theorem pow_le_write_uvarint (n : Nat) (h : 1 ≤ n) :
    128 ^ ((write_uvarint (n : Int)).length - 1) ≤ n := by
  induction n using Nat.strong_induction_on with
  | _ n ih =>
    rw [write_uvarint_nat]
    by_cases hlt : n < 128
    · simpa [hlt] using h
    · rw [if_neg hlt]
      have hih := ih (n / 128) (by omega) (by omega)
      have hpos : 1 ≤ (write_uvarint ((n / 128 : Nat) : Int)).length :=
        List.length_pos.mpr (write_uvarint_nat_ne_nil _)
      simp only [List.length_cons, Nat.add_sub_cancel]
      calc 128 ^ (write_uvarint ((n / 128 : Nat) : Int)).length
          = 128 ^ ((write_uvarint ((n / 128 : Nat) : Int)).length - 1) * 128 := by
            rw [← pow_succ]
            congr 1
            omega
        _ ≤ (n / 128) * 128 := Nat.mul_le_mul_right _ hih
        _ ≤ n := Nat.div_mul_le_self n 128

theorem varint_value_lt (l : List Nat) : varint_value l < 128 ^ l.length := by
  induction l with
  | nil => simp [varint_value]
  | cons b rest ih =>
    simp only [varint_value, List.length_cons, pow_succ]
    have hb : b % 128 < 128 := Nat.mod_lt _ (by omega)
    have h1 : 128 * varint_value rest ≤ 128 * (128 ^ rest.length - 1) :=
      Nat.mul_le_mul_left _ (by omega)
    have h2 : 1 ≤ 128 ^ rest.length := Nat.one_le_pow _ _ (by omega)
    omega

theorem write_uvarint_minimal (n : Nat) (l : List Nat) (hl : l ≠ [])
    (hv : varint_value l = n) : (write_uvarint (n : Int)).length ≤ l.length := by
  by_cases h : n < 128
  · have h1 : (write_uvarint (n : Int)).length = 1 := by
      rw [write_uvarint_nat, if_pos h]
      rfl
    have h2 : 1 ≤ l.length := List.length_pos.mpr hl
    omega
  · by_contra hc
    push_neg at hc
    have h1 := varint_value_lt l
    have h2 := pow_le_write_uvarint n (by omega)
    have h3 : 128 ^ l.length ≤ 128 ^ ((write_uvarint (n : Int)).length - 1) :=
      Nat.pow_le_pow_right (by omega) (by omega)
    omega

/-! ### Claims about the varint and string encoders -/

/-- Claim C2: for every non-negative integer `v`, `write_uvarint` emits the
minimal byte sequence holding 7 bits of `v` per byte in little-endian group
order, with the high bit set on every byte except the last; stripping the
continuation bits and reassembling the 7-bit groups little-endian
reconstructs `v` exactly; 0 encodes as `0x00`, 127 as `0x7F`, and 128 as
`0x80 0x01`. -/
theorem C2_uvarint_spec (v : Nat) :
    varint_value (write_uvarint (v : Int)) = v ∧
    uvarint_wf (write_uvarint (v : Int)) ∧
    (∀ l : List Nat, l ≠ [] → varint_value l = v →
      (write_uvarint (v : Int)).length ≤ l.length) ∧
    write_uvarint (0 : Int) = [0x00] ∧
    write_uvarint (127 : Int) = [0x7F] ∧
    write_uvarint (128 : Int) = [0x80, 0x01] :=
  ⟨varint_value_write v, write_uvarint_wf v,
   fun l hl hv => write_uvarint_minimal v l hl hv, rfl, rfl, rfl⟩

/-- Witness for C2: the minimality clause applied at `v = 128` with the
concrete two-byte candidate `0x80 0x01`. -/
theorem C2_uvarint_spec_witness :
    ([0x80, 0x01] : List Nat) ≠ [] ∧ varint_value [0x80, 0x01] = 128 ∧
    (write_uvarint ((128 : Nat) : Int)).length ≤ ([0x80, 0x01] : List Nat).length :=
  ⟨by decide, by decide, (C2_uvarint_spec 128).2.2.1 [0x80, 0x01] (by decide) (by decide)⟩

/-- Claim C3: `write_varbin_string` writes exactly the unsigned varint
encoding of the UTF-8 byte length of `s` (not its character count)
followed by the raw UTF-8 bytes of `s`; the empty string encodes as a
single zero byte, and nothing else is added.  The two-byte encoding of the
one-character string shows the prefix counts bytes, not characters. -/
theorem C3_varbin_spec (s : String) :
    write_varbin_string s = write_uvarint ((utf8Bytes s).length : Int) ++ utf8Bytes s ∧
    varint_value (write_uvarint ((utf8Bytes s).length : Int)) = (utf8Bytes s).length ∧
    write_varbin_string "" = [0x00] ∧
    write_varbin_string "é" = [0x02, 0xC3, 0xA9] ∧
    ("é" : String).length = 1 := by
  refine ⟨?_, varint_value_write _, rfl, rfl, rfl⟩
  by_cases h : 0 < (utf8Bytes s).length
  · simp [write_varbin_string, h]
  · have h0 : utf8Bytes s = [] := by
      cases hE : utf8Bytes s with
      | nil => rfl
      | cons x xs => rw [hE] at h; simp at h
    simp [write_varbin_string, h0]

/-- Claim C10: for every negative integer, `write_uvarint` terminates,
skips the continuation loop entirely, and writes exactly one byte equal to
`value & 0x7F` (Euclidean remainder by 128); in particular `-1` encodes to
the same single byte `0x7F` as `127` does. -/
theorem C10_negative_uvarint (v : Int) (hv : v < 0) :
    write_uvarint v = [(v % 0x80).toNat] ∧
    (write_uvarint v).length = 1 ∧
    write_uvarint (-1) = [0x7F] ∧
    write_uvarint (-1) = write_uvarint (127 : Int) := by
  have h : ¬ (0x80 : Int) ≤ v := by omega
  rw [write_uvarint_eq, if_neg h]
  exact ⟨rfl, rfl, rfl, rfl⟩

/-- Witness for C10 at the concrete input `-1`. -/
theorem C10_negative_uvarint_witness :
    write_uvarint (-1) = [((-1 : Int) % 0x80).toNat] :=
  (C10_negative_uvarint (-1) (by decide)).1

/-! ### Claims about the payload builder and message encoder -/

/-- Claim C1: the uncompressed payload handed to the compression framer is
exactly the concatenation of the length-prefixed name, the 4-byte
big-endian variant tag, the length-prefixed config, then the
length-prefixed remote path iff the variant is not Local, then the 1-byte
auto-update flag, 4-byte interval and 8-byte timestamp iff the variant is
Remote; conditional fields are omitted entirely, so a Local payload has
exactly 3 fields, an iCloud payload 4, and a Remote payload 6. -/
theorem C1_payload_layout (p : ProfileContent) :
    (p.type = PROFILE_TYPE_LOCAL →
      inner_payload p = some (write_varbin_string p.name ++
        [0x00, 0x00, 0x00, 0x00] ++ write_varbin_string p.config)) ∧
    (p.type = PROFILE_TYPE_ICLOUD →
      inner_payload p = some (write_varbin_string p.name ++
        [0x00, 0x00, 0x00, 0x01] ++ write_varbin_string p.config ++
        write_varbin_string p.remote_path)) ∧
    (p.type = PROFILE_TYPE_REMOTE →
      ∀ ivb lub, struct_pack_i32 p.auto_update_interval = some ivb →
        struct_pack_i64 p.last_updated = some lub →
        inner_payload p = some (write_varbin_string p.name ++
          [0x00, 0x00, 0x00, 0x02] ++ write_varbin_string p.config ++
          write_varbin_string p.remote_path ++
          struct_pack_bool p.auto_update ++ ivb ++ lub)) := by
  refine ⟨?_, ?_, ?_⟩
  · intro h
    have htag : struct_pack_i32 p.type = some [0x00, 0x00, 0x00, 0x00] := by
      rw [h]
      rfl
    have hL : ¬ (p.type ≠ PROFILE_TYPE_LOCAL) := by simp [h]
    have hR : p.type ≠ PROFILE_TYPE_REMOTE := by
      rw [h]
      decide
    simp only [inner_payload, htag, Option.bind_eq_bind, Option.some_bind]
    rw [if_neg hL, if_neg hR]
    simp
  · intro h
    have htag : struct_pack_i32 p.type = some [0x00, 0x00, 0x00, 0x01] := by
      rw [h]
      rfl
    have hL : p.type ≠ PROFILE_TYPE_LOCAL := by
      rw [h]
      decide
    have hR : p.type ≠ PROFILE_TYPE_REMOTE := by
      rw [h]
      decide
    simp only [inner_payload, htag, Option.bind_eq_bind, Option.some_bind]
    rw [if_pos hL, if_neg hR]
    simp
  · intro h ivb lub hiv hlu
    have htag : struct_pack_i32 p.type = some [0x00, 0x00, 0x00, 0x02] := by
      rw [h]
      rfl
    have hL : p.type ≠ PROFILE_TYPE_LOCAL := by
      rw [h]
      decide
    simp only [inner_payload, htag, Option.bind_eq_bind, Option.some_bind]
    rw [if_pos hL, if_pos h]
    simp only [hiv, hlu, Option.bind_eq_bind, Option.some_bind]
    simp

/-- Witness for C1: the Local clause at a concrete record. -/
theorem C1_payload_layout_witness :
    inner_payload (create_local_profile "n" "c") =
      some (write_varbin_string (create_local_profile "n" "c").name ++
        [0x00, 0x00, 0x00, 0x00] ++
        write_varbin_string (create_local_profile "n" "c").config) :=
  (C1_payload_layout (create_local_profile "n" "c")).1 rfl

/-- Claim C4: the first byte of every encoded message is 0x03 and the
second is 0x01, regardless of variant, and the remainder from offset 2 is
exactly the compressed payload with no checksum, length field or trailer
appended. -/
theorem C4_message_header (gz : List Nat → List Nat) (p : ProfileContent)
    (payload : List Nat) (h : inner_payload p = some payload) :
    encode_profile_content gz p = some (0x03 :: 0x01 :: gz payload) := by
  simp [encode_profile_content, h, MESSAGE_TYPE_PROFILE_CONTENT]

/-- Witness for C4 at a concrete Local record with the identity in place
of the compressor. -/
theorem C4_message_header_witness :
    encode_profile_content id (create_local_profile "n" "c") =
      some (0x03 :: 0x01 :: id [0x01, 0x6E, 0x00, 0x00, 0x00, 0x00, 0x01, 0x63]) :=
  C4_message_header id (create_local_profile "n" "c")
    [0x01, 0x6E, 0x00, 0x00, 0x00, 0x00, 0x01, 0x63] rfl

/-- Claim C5 fails on the code: the encoder's gzip framer reads the
clock.  `gzip.GzipFile` is opened without an `mtime` argument, so the
stream header embeds `int(time.time())` at message bytes 6-9, and two
invocations on the same record at clock values 0 and 1 produce different
bytes, whatever the time-independent rest of the compressed stream is.
This contradicts the specification's purity invariant, which is the
clear intent of a wire encoder, so the slip is in the code (the framer
should pin the timestamp, e.g. `mtime=0`). -/
theorem C5_gzip_mtime_clock_dependence :
    ∀ deflate_body : List Nat → List Nat,
      encode_profile_content_clocked deflate_body 0
          (create_local_profile "test" "\x7b\x7d") ≠
        encode_profile_content_clocked deflate_body 1
          (create_local_profile "test" "\x7b\x7d") := by
  intro d h
  have h' : some (MESSAGE_TYPE_PROFILE_CONTENT :: 1 :: (gzip_header 0 ++
        d [0x04, 0x74, 0x65, 0x73, 0x74, 0x00, 0x00, 0x00, 0x00, 0x02, 0x7B, 0x7D])) =
      some (MESSAGE_TYPE_PROFILE_CONTENT :: 1 :: (gzip_header 1 ++
        d [0x04, 0x74, 0x65, 0x73, 0x74, 0x00, 0x00, 0x00, 0x00, 0x02, 0x7B, 0x7D])) := h
  have h2 := Option.some.inj h'
  injection h2 with h3 h4
  injection h4 with h5 h6
  have h7 := List.append_inj h6 rfl
  exact absurd h7.1 (by decide)

/-- Claim C6: encoding the Local record with name `test` and config
consisting of an opening and a closing curly brace yields a message
starting `03 01` whose remainder is a compressed stream that decompresses
to exactly the 12 bytes
`04 74 65 73 74 00 00 00 00 02 7B 7D`. -/
theorem C6_local_end_to_end (gz gunzip : List Nat → List Nat)
    (hinv : ∀ l, gunzip (gz l) = l) :
    inner_payload (create_local_profile "test" "\x7b\x7d") =
      some [0x04, 0x74, 0x65, 0x73, 0x74, 0x00, 0x00, 0x00, 0x00, 0x02, 0x7B, 0x7D] ∧
    ∃ rest,
      encode_profile_content gz (create_local_profile "test" "\x7b\x7d") =
        some (0x03 :: 0x01 :: rest) ∧
      gunzip rest =
        [0x04, 0x74, 0x65, 0x73, 0x74, 0x00, 0x00, 0x00, 0x00, 0x02, 0x7B, 0x7D] :=
  ⟨rfl,
   gz [0x04, 0x74, 0x65, 0x73, 0x74, 0x00, 0x00, 0x00, 0x00, 0x02, 0x7B, 0x7D],
   rfl, hinv _⟩

/-- Witness for C6 with the identity compressor. -/
theorem C6_local_end_to_end_witness :
    inner_payload (create_local_profile "test" "\x7b\x7d") =
      some [0x04, 0x74, 0x65, 0x73, 0x74, 0x00, 0x00, 0x00, 0x00, 0x02, 0x7B, 0x7D] :=
  (C6_local_end_to_end id id (fun _ => rfl)).1

/-- Claim C7: for every record whose type and auto-update interval fit in
a signed 32-bit integer and whose last-updated value fits in a signed
64-bit integer, encoding raises no error and returns a complete byte
sequence. -/
theorem C7_encode_total (gz : List Nat → List Nat) (p : ProfileContent)
    (ht1 : -2147483648 ≤ p.type) (ht2 : p.type ≤ 2147483647)
    (hi1 : -2147483648 ≤ p.auto_update_interval)
    (hi2 : p.auto_update_interval ≤ 2147483647)
    (hl1 : -9223372036854775808 ≤ p.last_updated)
    (hl2 : p.last_updated ≤ 9223372036854775807) :
    ∃ out, encode_profile_content gz p = some out := by
  have htag : struct_pack_i32 p.type =
      some (be_bytes 4 ((p.type % 4294967296).toNat)) := by
    simp [struct_pack_i32, ht1, ht2]
  have hiv : struct_pack_i32 p.auto_update_interval =
      some (be_bytes 4 ((p.auto_update_interval % 4294967296).toNat)) := by
    simp [struct_pack_i32, hi1, hi2]
  have hlu : struct_pack_i64 p.last_updated =
      some (be_bytes 8 ((p.last_updated % 18446744073709551616).toNat)) := by
    simp [struct_pack_i64, hl1, hl2]
  have hpl : (inner_payload p).isSome := by
    simp only [inner_payload, htag, Option.bind_eq_bind, Option.some_bind]
    by_cases hT : p.type = PROFILE_TYPE_REMOTE
    · rw [if_pos hT]
      simp only [hiv, hlu, Option.bind_eq_bind, Option.some_bind]
      rfl
    · rw [if_neg hT]
      rfl
  obtain ⟨pl, hpl⟩ := Option.isSome_iff_exists.mp hpl
  exact ⟨MESSAGE_TYPE_PROFILE_CONTENT :: 1 :: gz pl, by
    unfold encode_profile_content
    rw [hpl]
    rfl⟩

/-- Witness for C7 at a concrete in-range Remote record. -/
theorem C7_encode_total_witness :
    ∃ out, encode_profile_content id
      (create_remote_profile "n" "c" "r" false 3600 0) = some out :=
  C7_encode_total id (create_remote_profile "n" "c" "r" false 3600 0)
    (by decide) (by decide) (by decide) (by decide) (by decide) (by decide)

/-! ### Claims about the command-line normalization in `main` -/

/-- Counterexample to claim C8: when the file-path heuristic matches but
the read fails, the code has already recorded `config_file_path`, so with
`--name` absent it derives the profile name from the unread path's base
name and proceeds — it does not exit with code 1 as the claim states.
Concretely, with argument `a.json` and every read failing, the outcome is
success with derived name `a`. -/
theorem C8_silent_fallback_counterexample :
    looks_like_path "a.json" = true ∧
    resolve_config_and_name (fun _ => none) "a.json" none =
      ConfigNameResult.ok "a.json" (some "a.json") "a" ∧
    resolve_config_and_name (fun _ => none) "a.json" none ≠
      ConfigNameResult.exit_error := by
  refine ⟨rfl, rfl, ?_⟩
  decide

/-- Claim C8 amended: when the heuristic matches and the read fails, the
literal argument text is used as the config content with no hard failure,
but the path is recorded before the read is attempted, so a missing
`--name` is derived from the unread path's base name (exiting with code 1
only if that derivation is empty); the missing-name exit happens whenever
the heuristic did not match and `--name` is absent. -/
theorem C8_silent_fallback_amended (read_file : String → Option String)
    (config : String) (args_name : Option String) :
    (looks_like_path config = true → read_file config = none →
      resolve_config_and_name read_file config args_name =
        (if (if args_name.getD "" = "" then
              (if config = "" then "" else split_ext_root (basename config))
             else args_name.getD "") = ""
         then ConfigNameResult.exit_error
         else ConfigNameResult.ok config (some config)
           (if args_name.getD "" = "" then
              (if config = "" then "" else split_ext_root (basename config))
            else args_name.getD ""))) ∧
    (looks_like_path config = false → args_name.getD "" = "" →
      resolve_config_and_name read_file config args_name =
        ConfigNameResult.exit_error) := by
  constructor
  · intro h1 h2
    simp [resolve_config_and_name, h1, h2]
  · intro h1 h2
    simp [resolve_config_and_name, h1, h2]

/-- Witness for the amended C8: a failing read of `b.json` still yields
success with the name derived from the unread path. -/
theorem C8_silent_fallback_amended_witness :
    resolve_config_and_name (fun _ => none) "b.json" none =
      ConfigNameResult.ok "b.json" (some "b.json") "b" := by
  have h := (C8_silent_fallback_amended (fun _ => none) "b.json" none).1 rfl rfl
  rw [h]
  rfl

/-- Counterexample to claim C9: the effective remote path is computed with
Python `or`, which treats an explicitly given empty `--remote-path` as
absent, so with `--remote-path` given as the empty string and
`--remotepath` given as `x` the code yields `x` while the claimed rule
(`--remote-path` if given, else `--remotepath`, else empty) yields the
empty string. -/
theorem C9_remote_path_counterexample :
    effective_remote_path (some "") (some "x") = "x" ∧
    claimed_remote_path (some "") (some "x") = "" ∧
    effective_remote_path (some "") (some "x") ≠
      claimed_remote_path (some "") (some "x") := by
  refine ⟨rfl, rfl, ?_⟩
  decide

/-- Claim C9 amended: the effective auto-update flag is the logical OR of
the two boolean flags; the effective interval equals the
`--autoupdateinterval` value whenever it is non-zero and otherwise the
`--auto-update-interval` value; the effective remote path is the
`--remote-path` value when given and non-empty, else the `--remotepath`
value when given and non-empty, else empty. -/
theorem C9_alias_normalization (au1 au2 : Bool) (ival alias_ival : Int)
    (rp1 rp2 : Option String) :
    (effective_auto_update au1 au2 = true ↔ au1 = true ∨ au2 = true) ∧
    (alias_ival ≠ 0 → effective_auto_update_interval alias_ival ival = alias_ival) ∧
    (alias_ival = 0 → effective_auto_update_interval alias_ival ival = ival) ∧
    (∀ s, rp1 = some s → s ≠ "" → effective_remote_path rp1 rp2 = s) ∧
    ((rp1 = none ∨ rp1 = some "") → ∀ t, rp2 = some t → t ≠ "" →
      effective_remote_path rp1 rp2 = t) ∧
    ((rp1 = none ∨ rp1 = some "") → (rp2 = none ∨ rp2 = some "") →
      effective_remote_path rp1 rp2 = "") := by
  refine ⟨?_, ?_, ?_, ?_, ?_, ?_⟩
  · simp [effective_auto_update]
  · intro h
    simp [effective_auto_update_interval, h]
  · intro h
    simp [effective_auto_update_interval, h]
  · rintro s rfl hs
    simp [effective_remote_path, py_or_string, hs]
  · rintro (rfl | rfl) t rfl ht <;>
      simp [effective_remote_path, py_or_string, ht]
  · rintro (rfl | rfl) (rfl | rfl) <;>
      simp [effective_remote_path, py_or_string]

/-- Witness for the amended C9: a given non-empty `--remote-path` wins
over the alias. -/
theorem C9_alias_normalization_witness :
    effective_remote_path (some "r") (some "z") = "r" :=
  (C9_alias_normalization true false 0 0 (some "r") (some "z")).2.2.2.1 "r" rfl (by decide)

end Json2bpf
